import Mathlib

/-!
Verification of the UDISE backend's filter / pagination / distribution core.

The definitions below are a shallow embedding of the JavaScript source:
* `src/routes/data.js` — `buildHierarchicalFilters`, `buildPagination`, the
  `GET /`, `POST /`, `DELETE /:id`, `GET /distribution` and `GET /filters`
  handlers;
* `src/models/School.js` — the active `getDistribution` static (the variant
  that sums the management groups for `totalSchools` and has no sort stage);
* the legacy routes variant (`buildFilters`) that applies every filter
  parameter independently and adds a `$or` search clause.

The Mongo store is modelled as a `List School`; an aggregation `$group`
stage is modelled as grouping over that list (group keys in `List.dedup`
order, since the pipeline has no `$sort` stage); the JavaScript `$regex`
search clause with the `i` option is modelled as case-insensitive literal
substring containment (exact for patterns without regex metacharacters).
JavaScript numbers are modelled as exact integers / rationals, which agrees
with the source on every quantity it computes (small integer arithmetic and
`Math.ceil` of an integer quotient).
-/

/-- A stored school document. Fields the Mongoose schema marks `required`
with no default are plain `String`s; the three categorical fields are
`Option String` because the distribution contract must hold even when a
field is null on some documents. `createdAt` is an abstract timestamp. -/
structure School where
  oid : String
  udise_code : String
  school_name : String
  state : String
  district : String
  block : String
  village : String
  cluster : Option String
  management : Option String
  location : Option String
  school_type : Option String
  school_category : Option String
  school_status : String
  isActive : Bool
  createdAt : Nat
  created_by : String
  updated_by : String
  deriving Repr, DecidableEq

/-- A request query string: every parameter is optional. -/
structure Query where
  state : Option String := none
  district : Option String := none
  block : Option String := none
  village : Option String := none
  management : Option String := none
  location : Option String := none
  school_type : Option String := none
  search : Option String := none
  page : Option String := none
  limit : Option String := none
  deriving Repr, DecidableEq

/-- JavaScript truthiness of an optional string parameter:
`undefined` and the empty string are falsy, everything else truthy. -/
def jsTruthy (o : Option String) : Bool :=
  match o with
  | none => false
  | some s => !s.isEmpty

/-- The value of a parameter when it is truthy, `none` otherwise
(models `if (query.x) filters.x = query.x`). -/
def truthyVal (o : Option String) : Option String :=
  match o with
  | none => none
  | some s => if s.isEmpty then none else some s

/-- A Mongo filter document as built by the route helpers: each field is an
optional equality clause; `search` records the `$or` regex clause on
`school_name` / `udise_code`; `isActive` records an equality clause on the
active flag (set by the legacy `part_003` builder, never by the wired one). -/
structure Filters where
  state : Option String := none
  district : Option String := none
  block : Option String := none
  village : Option String := none
  management : Option String := none
  location : Option String := none
  school_type : Option String := none
  search : Option String := none
  isActive : Option Bool := none
  deriving Repr, DecidableEq

/-- The empty filter document `{}`. -/
def emptyFilters : Filters := {}

/-- `buildHierarchicalFilters` from `src/routes/data.js` (the builder used
by the wired list and distribution endpoints): nested truthiness checks on
`state` ⊃ `district` ⊃ `block` ⊃ `village`; no other parameter is read. -/
def buildHierarchicalFilters (query : Query) : Filters :=
  match truthyVal query.state with
  | none => {}
  | some s =>
    match truthyVal query.district with
    | none => { state := some s }
    | some d =>
      match truthyVal query.block with
      | none => { state := some s, district := some d }
      | some b =>
        match truthyVal query.village with
        | none => { state := some s, district := some d, block := some b }
        | some v =>
          { state := some s, district := some d, block := some b, village := some v }

/-- `buildFilters` from the legacy routes variant (`src/unnamed/part_004`):
every parameter is applied independently when truthy, and a truthy `search`
adds the `$or` clause. -/
def buildFilters (query : Query) : Filters :=
  { state := truthyVal query.state
    district := truthyVal query.district
    block := truthyVal query.block
    village := truthyVal query.village
    management := truthyVal query.management
    location := truthyVal query.location
    school_type := truthyVal query.school_type
    search := truthyVal query.search
    isActive := none }

/-- Case-insensitive character list containment (`needle` occurs as a
contiguous infix of `hay`). -/
def charsContain (hay needle : List Char) : Bool :=
  match hay with
  | [] => needle.isEmpty
  | _ :: t => needle.isPrefixOf hay || charsContain t needle

/-- Case-insensitive substring containment on strings: the model of a
`$regex: pattern, $options: i` clause for a literal (metacharacter-free)
pattern, folding case ASCII-wise. -/
def containsCI (hay needle : String) : Bool :=
  charsContain (hay.toList.map Char.toLower) (needle.toList.map Char.toLower)

/-- Does a document satisfy an optional equality clause on a required field? -/
def clauseEq (clause : Option String) (v : String) : Bool :=
  match clause with
  | none => true
  | some x => x == v

/-- Does a document satisfy an optional equality clause on a nullable field? -/
def clauseEqOpt (clause : Option String) (v : Option String) : Bool :=
  match clause with
  | none => true
  | some x => v == some x

/-- Does a document satisfy an optional `$or` search clause (case-insensitive
match of the pattern against `school_name` or `udise_code`)? -/
def searchClause (o : Option String) (s : School) : Bool :=
  match o with
  | none => true
  | some q => containsCI s.school_name q || containsCI s.udise_code q

/-- Does a document satisfy an optional equality clause on `isActive`? -/
def isActiveClause (o : Option Bool) (s : School) : Bool :=
  match o with
  | none => true
  | some b => s.isActive == b

/-- Semantics of a filter document against one stored document: the
conjunction of all present clauses (Mongo `$match` / `find` semantics). -/
def matchesFilters (f : Filters) (s : School) : Bool :=
  clauseEq f.state s.state &&
  clauseEq f.district s.district &&
  clauseEq f.block s.block &&
  clauseEq f.village s.village &&
  clauseEqOpt f.management s.management &&
  clauseEqOpt f.location s.location &&
  clauseEqOpt f.school_type s.school_type &&
  searchClause f.search s &&
  isActiveClause f.isActive s

/-- The leading decimal-digit prefix of a character list, `none` when the
first character is not a digit (the NaN case of `parseInt`). -/
def leadingNat (cs : List Char) : Option Nat :=
  match cs.takeWhile Char.isDigit with
  | [] => none
  | ds => some (ds.foldl (fun a c => a * 10 + (c.toNat - 48)) 0)

/-- JavaScript `parseInt` on an optional string, restricted to decimal
numerals: skip leading whitespace, read an optional sign and then the
longest digit prefix; `none` models `NaN` (absent parameter, or no leading
digits). The `0x` hexadecimal branch of `parseInt` is not modelled; no
route supplies hexadecimal input. -/
def jsParseInt (o : Option String) : Option Int :=
  match o with
  | none => none
  | some s =>
    match s.toList.dropWhile Char.isWhitespace with
    | '-' :: rest => (leadingNat rest).map (fun n => -(n : Int))
    | '+' :: rest => (leadingNat rest).map (fun n => (n : Int))
    | cs => (leadingNat cs).map (fun n => (n : Int))

/-- JavaScript `x || d` applied to a `parseInt` result: `NaN` and `0` are
falsy and fall back to the default. -/
def orDefault (v : Option Int) (d : Int) : Int :=
  match v with
  | none => d
  | some n => if n = 0 then d else n

/-- The computed pagination window. -/
structure Pagination where
  page : Int
  limit : Int
  skip : Int
  deriving Repr, DecidableEq

/-- `buildPagination` from `src/routes/data.js`:
`page = parseInt(query.page) || 1`, `limit = parseInt(query.limit) || 20`,
`skip = (page - 1) * limit`. -/
def buildPagination (query : Query) : Pagination :=
  let page := orDefault (jsParseInt query.page) 1
  let limit := orDefault (jsParseInt query.limit) 20
  { page := page, limit := limit, skip := (page - 1) * limit }

/-- `Math.ceil(t / l)` for integer operands, as an exact rational ceiling;
`none` models the anomalous result of dividing by zero (JS `Infinity`/`NaN`,
which the route never produces — see the safety theorem for C6). -/
def jsDivCeil (t l : Int) : Option Int :=
  if l = 0 then none else some ⌈(t : ℚ) / (l : ℚ)⌉

/-- Insert a school into a list sorted by descending `createdAt`. -/
def insertByCreated (x : School) : List School → List School
  | [] => [x]
  | y :: ys => if y.createdAt ≤ x.createdAt then x :: y :: ys else y :: insertByCreated x ys

/-- `.sort(\x7b createdAt: -1 \x7d)`: newest first. -/
def sortByCreatedDesc (l : List School) : List School :=
  l.foldr insertByCreated []

/-- The list endpoint's JSON envelope: the windowed documents plus the
pagination block. -/
structure ListResponse where
  data : List School
  currentPage : Int
  totalPages : Option Int
  totalRecords : Nat
  hasNextPage : Bool
  hasPrevPage : Bool
  limit : Int
  deriving Repr, DecidableEq

/-- The `GET /` handler of `src/routes/data.js` over an in-memory store:
filter, count, sort, window, and compute the pagination metadata.
`skip`/`limit` are clamped to naturals for the window (the handler only
reaches Mongo with the values `buildPagination` produced). -/
def dataListHandler (records : List School) (query : Query) : ListResponse :=
  let f := buildHierarchicalFilters query
  let pg := buildPagination query
  let matched := records.filter (matchesFilters f)
  let total := matched.length
  let tpO := jsDivCeil (total : Int) pg.limit
  { data := ((sortByCreatedDesc matched).drop pg.skip.toNat).take pg.limit.toNat
    currentPage := pg.page
    totalPages := tpO
    totalRecords := total
    hasNextPage := match tpO with
      | none => false
      | some tp => decide (pg.page < tp)
    hasPrevPage := decide (pg.page > 1)
    limit := pg.limit }

/-- Insert a string into a `≤`-sorted list. -/
def insertStr (x : String) : List String → List String
  | [] => [x]
  | y :: ys => if x ≤ y then x :: y :: ys else y :: insertStr x ys

/-- `.sort()` on an array of strings: ascending lexicographic order. -/
def sortStr (l : List String) : List String :=
  l.foldr insertStr []

/-- The `GET /filters` response: one option list per hierarchy level. -/
structure FilterOptions where
  states : List String
  districts : List String
  blocks : List String
  villages : List String
  deriving Repr, DecidableEq

/-- The wired `GET /filters` handler of `src/routes/data.js`: distinct
states over the whole store; each deeper level only when every ancestor
parameter is truthy (`state ? ... : []` etc.), scoped by those ancestors;
each list sorted. -/
def filtersHandler (records : List School) (query : Query) : FilterOptions :=
  let states := sortStr ((records.map (·.state)).dedup)
  let districts := match truthyVal query.state with
    | some s => sortStr (((records.filter (fun r => r.state == s)).map (·.district)).dedup)
    | none => []
  let blocks := match truthyVal query.state, truthyVal query.district with
    | some s, some d =>
      sortStr (((records.filter (fun r => r.state == s && r.district == d)).map (·.block)).dedup)
    | _, _ => []
  let villages := match truthyVal query.state, truthyVal query.district, truthyVal query.block with
    | some s, some d, some b =>
      sortStr (((records.filter (fun r => r.state == s && r.district == d && r.block == b)).map (·.village)).dedup)
    | _, _, _ => []
  { states := states, districts := districts, blocks := blocks, villages := villages }

/-- One `$group`/`$project` pipeline over the matched documents: one
`(label, count)` entry per distinct key value, in group order (there is no
`$sort` stage in the active pipeline). -/
def groupCounts (key : School → Option String) (l : List School) : List (Option String × Nat) :=
  ((l.map key).dedup).map (fun k => (k, @List.count _ instBEqOfDecidableEq k (l.map key)))

/-- The result object of `School.getDistribution`. -/
structure Distribution where
  managementTypeDistribution : List (Option String × Nat)
  locationDistribution : List (Option String × Nat)
  schoolTypeDistribution : List (Option String × Nat)
  totalSchools : Nat
  deriving Repr, DecidableEq

/-- The active `getDistribution` static of `src/models/School.js`: three
group-by pipelines over the same `$match`, and `totalSchools` computed as
`managementTypeDistribution.reduce((sum, d) => sum + d.count, 0)` (the
`countDocuments` line is commented out in the source). -/
def getDistribution (filters : Filters) (records : List School) : Distribution :=
  let matched := records.filter (matchesFilters filters)
  let m := groupCounts (·.management) matched
  { managementTypeDistribution := m
    locationDistribution := groupCounts (·.location) matched
    schoolTypeDistribution := groupCounts (·.school_type) matched
    totalSchools := (m.map (·.2)).sum }

/-- The `GET /distribution` handler: build the hierarchical filters and
forward `getDistribution`'s fields (`distribution.totalSchools || 0` is the
identity on a natural number). -/
def distributionHandler (records : List School) (query : Query) : Distribution :=
  getDistribution (buildHierarchicalFilters query) records

/-- The create-request body: every field optional, as in a JSON body. -/
structure CreateBody where
  udise_code : Option String := none
  school_name : Option String := none
  state : Option String := none
  district : Option String := none
  block : Option String := none
  village : Option String := none
  cluster : Option String := none
  management : Option String := none
  location : Option String := none
  school_type : Option String := none
  school_category : Option String := none
  school_status : Option String := none
  deriving Repr, DecidableEq

def validManagement : List String := ["Government", "Private Unaided", "Aided", "Other"]
def validLocation : List String := ["Rural", "Urban", "Other"]
def validSchoolType : List String := ["Co-Ed", "Girls", "Boys", "Other"]
def validSchoolStatus : List String := ["Operational", "Permanently Closed", "Other"]

/-- An HTTP response, reduced to the status code and the `error` field of
the JSON body (`none` on success). -/
structure ApiResponse where
  status : Nat
  error : Option String := none
  deriving Repr, DecidableEq

def dupUdiseMsg : String := "School with this UDISE code already exists"

def missingFieldsMsg : String :=
  "Missing mandatory fields: udise_code, school_name, state, district, block, village are required"

def invalidEnumMsg (field : String) (valid : List String) : String :=
  "Invalid " ++ field ++ " value. Must be one of: " ++ String.intercalate ", " valid

/-- `if (x && !valid.includes(x))`: the enum check fires only on a truthy
value that is not in the allowed list. -/
def enumCheckFails (v : Option String) (valid : List String) : Bool :=
  match truthyVal v with
  | none => false
  | some x => !(valid.contains x)

/-- The `POST /` handler of `src/routes/data.js`: mandatory-field check,
four enum checks, duplicate `udise_code` check (`findOne` over the whole
store, active or not), then construct and save the new document.
`newId`/`now` stand for the generated ObjectId and timestamp. -/
def postHandler (store : List School) (body : CreateBody) (userId newId : String)
    (now : Nat) : ApiResponse × List School :=
  if !(jsTruthy body.udise_code && jsTruthy body.school_name && jsTruthy body.state &&
       jsTruthy body.district && jsTruthy body.block && jsTruthy body.village) then
    ({ status := 400, error := some missingFieldsMsg }, store)
  else if enumCheckFails body.management validManagement then
    ({ status := 400, error := some (invalidEnumMsg "management" validManagement) }, store)
  else if enumCheckFails body.location validLocation then
    ({ status := 400, error := some (invalidEnumMsg "location" validLocation) }, store)
  else if enumCheckFails body.school_type validSchoolType then
    ({ status := 400, error := some (invalidEnumMsg "school_type" validSchoolType) }, store)
  else if enumCheckFails body.school_status validSchoolStatus then
    ({ status := 400, error := some (invalidEnumMsg "school_status" validSchoolStatus) }, store)
  else if store.any (fun s => some s.udise_code == body.udise_code) then
    ({ status := 400, error := some dupUdiseMsg }, store)
  else
    let newSchool : School :=
      { oid := newId
        udise_code := (body.udise_code).getD ""
        school_name := (body.school_name).getD ""
        state := (body.state).getD ""
        district := (body.district).getD ""
        block := (body.block).getD ""
        village := (body.village).getD ""
        cluster := body.cluster
        management := some ((truthyVal body.management).getD "Government")
        location := some ((truthyVal body.location).getD "Rural")
        school_type := some ((truthyVal body.school_type).getD "Co-Ed")
        school_category := body.school_category
        school_status := (truthyVal body.school_status).getD "Operational"
        isActive := decide (body.school_status ≠ some "Permanently Closed")
        createdAt := now
        created_by := userId
        updated_by := userId }
    ({ status := 201, error := none }, store ++ [newSchool])

/-- A hexadecimal digit. -/
def isHexDigit (c : Char) : Bool :=
  c.isDigit || ('a' ≤ c && c ≤ 'f') || ('A' ≤ c && c ≤ 'F')

/-- `mongoose.Types.ObjectId.isValid`: a 24-character hex string or any
12-character string. -/
def isValidObjectId (id : String) : Bool :=
  (id.length == 24 && id.toList.all isHexDigit) || id.length == 12

/-- The soft-delete update applied by the `DELETE /:id` handler:
`isActive: false`, `school_status: 'Permanently Closed'`, `updated_by`. -/
def softDeleteUpdate (userId : String) (s : School) : School :=
  { s with isActive := false, school_status := "Permanently Closed", updated_by := userId }

/-- The `DELETE /:id` handler of `src/routes/data.js`: ObjectId format
check, then `findByIdAndUpdate` with the soft-delete update (modelled as a
map over the store; Mongo `_id`s are unique so at most one document
changes), 404 when no document has the id. -/
def deleteHandler (store : List School) (id userId : String) : ApiResponse × List School :=
  if !isValidObjectId id then
    ({ status := 400, error := some "Invalid school ID" }, store)
  else if store.any (fun s => s.oid == id) then
    ({ status := 200, error := none },
     store.map (fun s => if s.oid == id then softDeleteUpdate userId s else s))
  else
    ({ status := 404, error := some "School record not found" }, store)

/-- A baseline stored document used for concrete test inputs. -/
def schoolBase : School :=
  { oid := "aaaaaaaaaaaaaaaaaaaaaaaa"
    udise_code := "10010100101"
    school_name := "Govt High School"
    state := "MP"
    district := "Bhopal"
    block := "B1"
    village := "V1"
    cluster := none
    management := some "Government"
    location := some "Rural"
    school_type := some "Co-Ed"
    school_category := none
    school_status := "Operational"
    isActive := true
    createdAt := 0
    created_by := "u1"
    updated_by := "u1" }

/-- A document with a different management label. -/
def schoolAided : School :=
  { schoolBase with
    oid := "bbbbbbbbbbbbbbbbbbbbbbbb"
    udise_code := "20020200202"
    school_name := "Aided Primary School"
    management := some "Aided" }

/-- A second Government-managed document. -/
def schoolGov2 : School :=
  { schoolBase with
    oid := "cccccccccccccccccccccccc"
    udise_code := "30030300303"
    createdAt := 2 }

/-- A store whose management groups are emitted with an ascending count
(one Aided document first, then two Government ones). -/
def distSample : List School := [schoolAided, schoolBase, schoolGov2]

/-- The ordering property the specification asks of a distribution
sequence, written from the spec's words for comparison with the code:
strictly descending counts, ties broken by ascending label. -/
def labelLtOpt (a b : Option String) : Bool :=
  match a, b with
  | none, some _ => true
  | some x, some y => x < y
  | _, _ => false

/-- One ordered step of the spec's distribution ordering. -/
def pairOrdered (x y : Option String × Nat) : Bool :=
  y.2 < x.2 || (x.2 == y.2 && labelLtOpt x.1 y.1)

/-- Is the sequence in descending-count order with ties broken by
ascending label?  (Spec wording; the code has no sort stage.) -/
def sortedByCountDescLabelAsc : List (Option String × Nat) → Bool
  | [] => true
  | [_] => true
  | x :: y :: rest => pairOrdered x y && sortedByCountDescLabelAsc (y :: rest)

/-- A create-request body whose `udise_code` collides with `schoolBase`. -/
def dupBody : CreateBody :=
  { udise_code := some "10010100101"
    school_name := some "New School"
    state := some "MP"
    district := some "Bhopal"
    block := some "B1"
    village := some "V2" }

/- ================================================================
   Theorems
   ================================================================ -/

theorem jsTruthy_eq_isSome (o : Option String) : jsTruthy o = (truthyVal o).isSome := by
  cases o with
  | none => rfl
  | some s => by_cases h : s.isEmpty <;> simp [truthyVal, jsTruthy, h]

theorem orDefault_ne_zero (v : Option Int) (d : Int) (hd : d ≠ 0) : orDefault v d ≠ 0 := by
  cases v with
  | none => simpa [orDefault]
  | some n => by_cases h : n = 0 <;> simp [orDefault, h, hd]

theorem buildPagination_limit_ne_zero (q : Query) : (buildPagination q).limit ≠ 0 := by
  simpa [buildPagination] using orDefault_ne_zero (jsParseInt q.limit) 20 (by decide)

theorem bHF_extra_none (q : Query) :
    (buildHierarchicalFilters q).management = none ∧
    (buildHierarchicalFilters q).location = none ∧
    (buildHierarchicalFilters q).school_type = none ∧
    (buildHierarchicalFilters q).search = none ∧
    (buildHierarchicalFilters q).isActive = none := by
  unfold buildHierarchicalFilters
  rcases truthyVal q.state with _ | s
  · exact ⟨rfl, rfl, rfl, rfl, rfl⟩
  rcases truthyVal q.district with _ | d
  · exact ⟨rfl, rfl, rfl, rfl, rfl⟩
  rcases truthyVal q.block with _ | b
  · exact ⟨rfl, rfl, rfl, rfl, rfl⟩
  rcases truthyVal q.village with _ | v
  · exact ⟨rfl, rfl, rfl, rfl, rfl⟩
  · exact ⟨rfl, rfl, rfl, rfl, rfl⟩

theorem matchesFilters_isActive_irrel (f : Filters) (hf : f.isActive = none)
    (s : School) (b : Bool) :
    matchesFilters f { s with isActive := b } = matchesFilters f s := by
  simp [matchesFilters, hf, searchClause, isActiveClause]

/-- C3: the wired filter builder is strictly nesting: a `district` clause
requires a truthy `state` parameter, a `block` clause requires `state` and
`district`, a `village` clause requires all three ancestors; the query
`{district: "X"}` alone produces the empty filter document; and the wired
`GET /filters` handler gates each level's option list on the same truthy
ancestors, returning `[]` whenever a parent is missing. -/
theorem claim_C3_strict_nesting (q : Query) (records : List School) :
    ((buildHierarchicalFilters q).district ≠ none → jsTruthy q.state = true) ∧
    ((buildHierarchicalFilters q).block ≠ none →
      jsTruthy q.state = true ∧ jsTruthy q.district = true) ∧
    ((buildHierarchicalFilters q).village ≠ none →
      jsTruthy q.state = true ∧ jsTruthy q.district = true ∧ jsTruthy q.block = true) ∧
    buildHierarchicalFilters { district := some "X" } = emptyFilters ∧
    (jsTruthy q.state = false →
      (filtersHandler records q).districts = [] ∧
      (filtersHandler records q).blocks = [] ∧
      (filtersHandler records q).villages = []) ∧
    (jsTruthy q.district = false →
      (filtersHandler records q).blocks = [] ∧ (filtersHandler records q).villages = []) ∧
    (jsTruthy q.block = false → (filtersHandler records q).villages = []) := by
  refine ⟨?_, ?_, ?_, by decide, ?_, ?_, ?_⟩ <;>
    (rcases h1 : truthyVal q.state with _ | s <;>
      rcases h2 : truthyVal q.district with _ | d <;>
        rcases h3 : truthyVal q.block with _ | b <;>
          rcases h4 : truthyVal q.village with _ | v <;>
            simp [buildHierarchicalFilters, filtersHandler, jsTruthy_eq_isSome,
              h1, h2, h3, h4])

/-- C3 witness: on the query `state=MP&district=Bhopal` the builder's
district clause is present, and the theorem yields that `state` was truthy. -/
theorem claim_C3_strict_nesting_witness :
    jsTruthy (Query.state { state := some "MP", district := some "Bhopal" }) = true :=
  (claim_C3_strict_nesting { state := some "MP", district := some "Bhopal" } []).1
    (by decide)

/-- C4 counterexample: the claim says `page` and `limit` values below 1
default to 1 and 20, but `parseInt(x) || d` only replaces `NaN` and `0`:
the query `page=-2&limit=-3` yields page −2, limit −3 (and skip 9). -/
theorem claim_C4_counterexample :
    (buildPagination { page := some "-2", limit := some "-3" }).page = -2 ∧
    (buildPagination { page := some "-2", limit := some "-3" }).limit = -3 ∧
    (buildPagination { page := some "-2", limit := some "-3" }).skip = 9 ∧
    ¬((buildPagination { page := some "-2", limit := some "-3" }).page = 1) ∧
    ¬((buildPagination { page := some "-2", limit := some "-3" }).limit = 20) := by
  decide

/-- C4 (amended): the pagination calculator returns page = 1 exactly when
the `page` parameter is absent, non-numeric, or parses to 0 — any other
parsed value, negative values included, is used as-is; `limit` behaves the
same with default 20; and skip = (page − 1) · limit always. -/
theorem claim_C4_amended (q : Query) :
    ((jsParseInt q.page = none ∨ jsParseInt q.page = some 0) →
      (buildPagination q).page = 1) ∧
    (∀ n : Int, n ≠ 0 → jsParseInt q.page = some n → (buildPagination q).page = n) ∧
    ((jsParseInt q.limit = none ∨ jsParseInt q.limit = some 0) →
      (buildPagination q).limit = 20) ∧
    (∀ n : Int, n ≠ 0 → jsParseInt q.limit = some n → (buildPagination q).limit = n) ∧
    (buildPagination q).skip = ((buildPagination q).page - 1) * (buildPagination q).limit := by
  refine ⟨?_, ?_, ?_, ?_, rfl⟩
  · rintro (h | h) <;> simp [buildPagination, orDefault, h]
  · intro n hn h; simp [buildPagination, orDefault, h, hn]
  · rintro (h | h) <;> simp [buildPagination, orDefault, h]
  · intro n hn h; simp [buildPagination, orDefault, h, hn]

/-- C4 witness: `page=3&limit=-3` gives page 3 (and the default branch
gives limit −3 untouched, per the amended reading). -/
theorem claim_C4_amended_witness :
    (buildPagination { page := some "3", limit := some "-3" }).page = 3 :=
  (claim_C4_amended { page := some "3", limit := some "-3" }).2.1 3 (by decide) (by decide)

/-- C10: the wired list endpoint applies no `isActive` constraint: the
builder emits no `isActive` clause, matching a document is independent of
its `isActive` flag, `totalRecords` counts exactly the documents matching
the built filter, and soft-deleting every document in the store leaves
`totalRecords` unchanged. -/
theorem claim_C10_soft_deleted_included (q : Query) (records : List School)
    (s : School) (b : Bool) :
    (buildHierarchicalFilters q).isActive = none ∧
    matchesFilters (buildHierarchicalFilters q) { s with isActive := b } =
      matchesFilters (buildHierarchicalFilters q) s ∧
    (dataListHandler records q).totalRecords =
      (records.filter (matchesFilters (buildHierarchicalFilters q))).length ∧
    (dataListHandler (records.map (fun r => { r with isActive := false })) q).totalRecords =
      (dataListHandler records q).totalRecords := by
  have hnone := (bHF_extra_none q).2.2.2.2
  refine ⟨hnone, matchesFilters_isActive_irrel _ hnone s b, rfl, ?_⟩
  show ((records.map fun r => { r with isActive := false }).filter
      (matchesFilters (buildHierarchicalFilters q))).length =
    (records.filter (matchesFilters (buildHierarchicalFilters q))).length
  rw [List.filter_map, List.length_map]
  congr 1
  apply List.filter_congr
  intro r _
  show matchesFilters (buildHierarchicalFilters q) { r with isActive := false } =
      matchesFilters (buildHierarchicalFilters q) r
  exact matchesFilters_isActive_irrel _ hnone r false

/-- C5: the list endpoint's pagination metadata satisfies
`totalPages = ceil(T / limit)`, `hasNextPage = page < totalPages` and
`hasPrevPage = page > 1`, for the computed page and limit and the total
count `T` of documents matching the filter. -/
theorem claim_C5_pagination_metadata (records : List School) (q : Query) :
    (dataListHandler records q).totalPages =
      some ⌈((dataListHandler records q).totalRecords : ℚ) /
        ((dataListHandler records q).limit : ℚ)⌉ ∧
    (dataListHandler records q).hasNextPage =
      decide ((dataListHandler records q).currentPage <
        ⌈((dataListHandler records q).totalRecords : ℚ) /
          ((dataListHandler records q).limit : ℚ)⌉) ∧
    (dataListHandler records q).hasPrevPage =
      decide (1 < (dataListHandler records q).currentPage) := by
  have hl := buildPagination_limit_ne_zero q
  refine ⟨?_, ?_, rfl⟩
  · simp [dataListHandler, jsDivCeil, hl]
  · simp [dataListHandler, jsDivCeil, hl]

/-- C6: the computed limit is never 0 (`parseInt(x) || 20` replaces both
`NaN` and `0`), so `totalPages = Math.ceil(total / limit)` never divides by
zero, and when no document matches the reported `totalPages` is 0. -/
theorem claim_C6_limit_zero_safe (records : List School) (q : Query) :
    (buildPagination q).limit ≠ 0 ∧
    (dataListHandler records q).totalPages ≠ none ∧
    ((dataListHandler records q).totalRecords = 0 →
      (dataListHandler records q).totalPages = some 0) := by
  have hl := buildPagination_limit_ne_zero q
  refine ⟨hl, ?_, ?_⟩
  · simp [dataListHandler, jsDivCeil, hl]
  · intro h0
    have h0' : (records.filter (matchesFilters (buildHierarchicalFilters q))).length = 0 := h0
    show jsDivCeil ((records.filter (matchesFilters (buildHierarchicalFilters q))).length : Int)
        (buildPagination q).limit = some 0
    rw [h0']
    simp [jsDivCeil, hl]

/-- C6 witness: the empty store with the empty query has `totalRecords = 0`
and the handler reports `totalPages = some 0`. -/
theorem claim_C6_limit_zero_safe_witness :
    (dataListHandler [] {}).totalPages = some 0 :=
  (claim_C6_limit_zero_safe [] {}).2.2 rfl

theorem sum_groupCounts (key : School → Option String) (l : List School) :
    ((groupCounts key l).map (·.2)).sum = l.length := by
  unfold groupCounts
  rw [List.map_map]
  have h := List.sum_map_count_dedup_eq_length (l.map key)
  rw [List.length_map] at h
  exact h

/-- C2: `totalSchools` (computed in the source as the sum of the
management-group counts) equals the number of documents matching the
predicate — a `$group` stage partitions the matched documents, null keys
included — and it equals the sum of the `locationDistribution` counts
whenever `location` is non-null on every matching document. -/
theorem claim_C2_total_consistency (f : Filters) (records : List School) :
    (getDistribution f records).totalSchools =
      (records.filter (matchesFilters f)).length ∧
    ((∀ s ∈ records.filter (matchesFilters f), s.location ≠ none) →
      (getDistribution f records).totalSchools =
        ((getDistribution f records).locationDistribution.map (·.2)).sum) := by
  have hm := sum_groupCounts (·.management) (records.filter (matchesFilters f))
  have hlo := sum_groupCounts (·.location) (records.filter (matchesFilters f))
  constructor
  · exact hm
  · intro _
    show ((groupCounts (·.management) (records.filter (matchesFilters f))).map (·.2)).sum =
        ((groupCounts (·.location) (records.filter (matchesFilters f))).map (·.2)).sum
    rw [hm, hlo]

/-- C2 witness: on the three-document sample store every matching document
has a non-null `location`, and `totalSchools` equals the sum of the
location counts. -/
theorem claim_C2_total_consistency_witness :
    (getDistribution emptyFilters distSample).totalSchools =
      ((getDistribution emptyFilters distSample).locationDistribution.map (·.2)).sum :=
  (claim_C2_total_consistency emptyFilters distSample).2 (by decide)

theorem groupCounts_pos_and_mem (key : School → Option String) (l : List School) :
    ∀ p ∈ groupCounts key l, 0 < p.2 ∧ p.1 ∈ l.map key := by
  intro p hp
  unfold groupCounts at hp
  rcases List.mem_map.mp hp with ⟨k, hk, rfl⟩
  have hk' : k ∈ l.map key := List.mem_dedup.mp hk
  exact ⟨(@List.count_pos_iff _ instBEqOfDecidableEq _ _ _).mpr hk', hk'⟩

theorem groupCounts_labels (key : School → Option String) (l : List School) :
    (groupCounts key l).map (·.1) = (l.map key).dedup := by
  unfold groupCounts
  rw [List.map_map]
  exact List.map_id _

/-- C7 counterexample: the active `getDistribution` pipelines have no
`$sort` stage, so the management sequence of the sample store comes out as
`[(Aided, 1), (Government, 2)]` — an ascending count order, violating the
claimed descending-count emission. -/
theorem claim_C7_counterexample :
    (getDistribution emptyFilters distSample).managementTypeDistribution =
      [(some "Aided", 1), (some "Government", 2)] ∧
    sortedByCountDescLabelAsc
      (getDistribution emptyFilters distSample).managementTypeDistribution = false := by
  decide

theorem count_map_key (key : School → Option String) (k : Option String)
    (l : List School) :
    @List.count _ instBEqOfDecidableEq k (l.map key) =
      (l.filter (fun s => key s = k)).length := by
  induction l with
  | nil => rfl
  | cons a t ih =>
    rw [List.map_cons, @List.count_cons _ instBEqOfDecidableEq k (key a) (t.map key), ih,
      List.filter_cons]
    by_cases h : key a = k
    · simp [h]
    · simp [h]

theorem groupCounts_count (key : School → Option String) (l : List School) :
    ∀ p ∈ groupCounts key l, p.2 = (l.filter (fun s => key s = p.1)).length := by
  intro p hp
  unfold groupCounts at hp
  rcases List.mem_map.mp hp with ⟨k, _, rfl⟩
  exact count_map_key key k l

/-- A `$group` pipeline over the matched documents yields pairwise distinct
labels, one per occurring key value (none omitted), and each entry's count
is exactly the number of documents carrying that key value (positive, so
zero-count labels never appear). -/
theorem groupCounts_spec (key : School → Option String) (l : List School) :
    ((groupCounts key l).map (·.1)).Nodup ∧
    (∀ v ∈ l.map key, v ∈ (groupCounts key l).map (·.1)) ∧
    (∀ p ∈ groupCounts key l,
      p.1 ∈ l.map key ∧ 0 < p.2 ∧ p.2 = (l.filter (fun s => key s = p.1)).length) := by
  refine ⟨?_, ?_, ?_⟩
  · rw [groupCounts_labels]
    exact List.nodup_dedup _
  · intro v hv
    rw [groupCounts_labels]
    exact List.mem_dedup.mpr hv
  · intro p hp
    obtain ⟨hpos, hmem⟩ := groupCounts_pos_and_mem key l p hp
    exact ⟨hmem, hpos, groupCounts_count key l p hp⟩

/-- C7 (amended): each of the three sequences contains exactly one entry
per distinct field value occurring among the matching documents — the
labels are pairwise distinct, every occurring value is emitted, every
emitted label occurs — and each entry's count is exactly the number of
matching documents with that value (positive, so labels with zero matching
records are omitted); but the sequences carry no ordering guarantee (the
pipelines have no sort stage). -/
theorem claim_C7_amended (f : Filters) (records : List School) :
    (((getDistribution f records).managementTypeDistribution.map (·.1)).Nodup ∧
     (∀ v ∈ (records.filter (matchesFilters f)).map (·.management),
       v ∈ (getDistribution f records).managementTypeDistribution.map (·.1)) ∧
     (∀ p ∈ (getDistribution f records).managementTypeDistribution,
       p.1 ∈ (records.filter (matchesFilters f)).map (·.management) ∧
       0 < p.2 ∧
       p.2 = ((records.filter (matchesFilters f)).filter
         (fun s => s.management = p.1)).length)) ∧
    (((getDistribution f records).locationDistribution.map (·.1)).Nodup ∧
     (∀ v ∈ (records.filter (matchesFilters f)).map (·.location),
       v ∈ (getDistribution f records).locationDistribution.map (·.1)) ∧
     (∀ p ∈ (getDistribution f records).locationDistribution,
       p.1 ∈ (records.filter (matchesFilters f)).map (·.location) ∧
       0 < p.2 ∧
       p.2 = ((records.filter (matchesFilters f)).filter
         (fun s => s.location = p.1)).length)) ∧
    (((getDistribution f records).schoolTypeDistribution.map (·.1)).Nodup ∧
     (∀ v ∈ (records.filter (matchesFilters f)).map (·.school_type),
       v ∈ (getDistribution f records).schoolTypeDistribution.map (·.1)) ∧
     (∀ p ∈ (getDistribution f records).schoolTypeDistribution,
       p.1 ∈ (records.filter (matchesFilters f)).map (·.school_type) ∧
       0 < p.2 ∧
       p.2 = ((records.filter (matchesFilters f)).filter
         (fun s => s.school_type = p.1)).length)) :=
  ⟨groupCounts_spec (fun s => s.management) (records.filter (matchesFilters f)),
   groupCounts_spec (fun s => s.location) (records.filter (matchesFilters f)),
   groupCounts_spec (fun s => s.school_type) (records.filter (matchesFilters f))⟩

/-- C7 witness: the `Government` entry of the sample distribution carries
count 2, and the theorem certifies that exactly 2 matching documents are
Government-managed. -/
theorem claim_C7_amended_witness :
    ((distSample.filter (matchesFilters emptyFilters)).filter
      (fun s => s.management = some "Government")).length = 2 :=
  ((((claim_C7_amended emptyFilters distSample).1).2.2 (some "Government", 2)
    (by decide)).2.2).symm

theorem clauseEq_iff (o : Option String) (v : String) :
    clauseEq o v = true ↔ ∀ x, o = some x → v = x := by
  cases o with
  | none => simp [clauseEq]
  | some x =>
    simp [clauseEq]
    exact eq_comm

theorem clauseEqOpt_iff (o v : Option String) :
    clauseEqOpt o v = true ↔ ∀ x, o = some x → v = some x := by
  cases o with
  | none => simp [clauseEqOpt]
  | some x => simp [clauseEqOpt]

theorem searchClause_iff (o : Option String) (s : School) :
    searchClause o s = true ↔
      ∀ v, o = some v →
        (containsCI s.school_name v || containsCI s.udise_code v) = true := by
  cases o <;> simp [searchClause]

/-- C1 counterexample: the wired list endpoint builds its filter with
`buildHierarchicalFilters`, which reads only the geographic parameters:
the query `management=Government&search=xyz` produces the empty filter
document, and a document with a different management label and no
occurrence of the search string still matches it. -/
theorem claim_C1_counterexample :
    buildHierarchicalFilters { management := some "Government", search := some "xyz" } =
      emptyFilters ∧
    matchesFilters
      (buildHierarchicalFilters { management := some "Government", search := some "xyz" })
      schoolAided = true ∧
    schoolAided.management ≠ some "Government" ∧
    containsCI schoolAided.school_name "xyz" = false ∧
    containsCI schoolAided.udise_code "xyz" = false := by
  decide

/-- C1 (amended): the builder used by the wired list endpoint emits no
`management`, `location`, `school_type` or `search` clause at all; the
independent builder of the legacy routes variant satisfies the property as
originally claimed — a document matches its filter exactly when it
satisfies one equality constraint per present parameter plus, when
`search` is present, the case-insensitive substring disjunction over
`school_name` and `udise_code` (absent parameters constrain nothing). -/
theorem claim_C1_amended (q : Query) (s : School) :
    ((buildHierarchicalFilters q).management = none ∧
     (buildHierarchicalFilters q).location = none ∧
     (buildHierarchicalFilters q).school_type = none ∧
     (buildHierarchicalFilters q).search = none) ∧
    (matchesFilters (buildFilters q) s = true ↔
      ((∀ v, truthyVal q.state = some v → s.state = v) ∧
       (∀ v, truthyVal q.district = some v → s.district = v) ∧
       (∀ v, truthyVal q.block = some v → s.block = v) ∧
       (∀ v, truthyVal q.village = some v → s.village = v) ∧
       (∀ v, truthyVal q.management = some v → s.management = some v) ∧
       (∀ v, truthyVal q.location = some v → s.location = some v) ∧
       (∀ v, truthyVal q.school_type = some v → s.school_type = some v) ∧
       (∀ v, truthyVal q.search = some v →
         (containsCI s.school_name v || containsCI s.udise_code v) = true))) := by
  constructor
  · obtain ⟨h1, h2, h3, h4, _⟩ := bHF_extra_none q
    exact ⟨h1, h2, h3, h4⟩
  · simp only [matchesFilters, buildFilters, Bool.and_eq_true, clauseEq_iff,
      clauseEqOpt_iff, searchClause_iff, isActiveClause, and_true, and_assoc]

/-- C1 witness: for the query `state=MP` the amended characterization,
applied to a matching document, recovers the state equality. -/
theorem claim_C1_amended_witness : schoolBase.state = "MP" :=
  ((claim_C1_amended { state := some "MP" } schoolBase).2.mp (by decide)).1 "MP" (by decide)

/-- C8: when the body passes the mandatory-field and enum checks and some
stored document (active or not) already carries the submitted
`udise_code`, the create handler answers with the dedicated duplicate
message — distinct from the generic validation messages — with status 400
(not 500), and the store is unchanged. -/
theorem claim_C8_duplicate_conflict (store : List School) (body : CreateBody)
    (userId newId : String) (now : Nat)
    (hmand : (jsTruthy body.udise_code && jsTruthy body.school_name && jsTruthy body.state &&
      jsTruthy body.district && jsTruthy body.block && jsTruthy body.village) = true)
    (hm : enumCheckFails body.management validManagement = false)
    (hlo : enumCheckFails body.location validLocation = false)
    (hty : enumCheckFails body.school_type validSchoolType = false)
    (hst : enumCheckFails body.school_status validSchoolStatus = false)
    (hdup : ∃ s ∈ store, some s.udise_code = body.udise_code) :
    (postHandler store body userId newId now).1.status = 400 ∧
    (postHandler store body userId newId now).1.status ≠ 500 ∧
    (postHandler store body userId newId now).1.error = some dupUdiseMsg ∧
    dupUdiseMsg ≠ "Validation error" ∧
    dupUdiseMsg ≠ missingFieldsMsg ∧
    (postHandler store body userId newId now).2 = store := by
  have hany : store.any (fun s => some s.udise_code == body.udise_code) = true := by
    rcases hdup with ⟨s, hs, he⟩
    exact List.any_eq_true.mpr ⟨s, hs, by simp [he]⟩
  have hred : postHandler store body userId newId now =
      ({ status := 400, error := some dupUdiseMsg }, store) := by
    simp [postHandler, hmand, hm, hlo, hty, hst, hany]
  refine ⟨by rw [hred], ?_, by rw [hred], by decide, by decide, by rw [hred]⟩
  rw [hred]
  exact (by decide : (400 : Nat) ≠ 500)

/-- C8 witness: submitting `dupBody` against a store already holding
`schoolBase` (same `udise_code`) yields the duplicate-conflict message. -/
theorem claim_C8_duplicate_conflict_witness :
    (postHandler [schoolBase] dupBody "u9" "dddddddddddddddddddddddd" 5).1.error =
      some dupUdiseMsg :=
  (claim_C8_duplicate_conflict [schoolBase] dupBody "u9" "dddddddddddddddddddddddd" 5
    (by decide) (by decide) (by decide) (by decide) (by decide)
    ⟨schoolBase, by simp, by decide⟩).2.2.1

/-- C9: for a valid id carried by a stored document, the delete endpoint
soft-deletes: the store keeps the same number of documents, the targeted
document survives with `isActive := false`, `school_status` set to
`Permanently Closed` and `updated_by` set to the caller — every other
field untouched, as the record-update form shows — other documents are
untouched, and the handler answers 200. -/
theorem claim_C9_soft_delete (store : List School) (id userId : String) (s : School)
    (hvalid : isValidObjectId id = true) (hmem : s ∈ store) (hid : s.oid = id) :
    ((deleteHandler store id userId).2).length = store.length ∧
    softDeleteUpdate userId s ∈ (deleteHandler store id userId).2 ∧
    (∀ t ∈ store, t.oid ≠ id → t ∈ (deleteHandler store id userId).2) ∧
    (deleteHandler store id userId).1.status = 200 ∧
    softDeleteUpdate userId s =
      { s with isActive := false, school_status := "Permanently Closed",
               updated_by := userId } ∧
    (softDeleteUpdate userId s).udise_code = s.udise_code ∧
    (softDeleteUpdate userId s).school_name = s.school_name ∧
    (softDeleteUpdate userId s).state = s.state ∧
    (softDeleteUpdate userId s).district = s.district ∧
    (softDeleteUpdate userId s).block = s.block ∧
    (softDeleteUpdate userId s).village = s.village ∧
    (softDeleteUpdate userId s).management = s.management ∧
    (softDeleteUpdate userId s).location = s.location ∧
    (softDeleteUpdate userId s).school_type = s.school_type ∧
    (softDeleteUpdate userId s).createdAt = s.createdAt ∧
    (softDeleteUpdate userId s).isActive = false ∧
    (softDeleteUpdate userId s).school_status = "Permanently Closed" ∧
    (softDeleteUpdate userId s).updated_by = userId := by
  have hfound : store.any (fun t => t.oid == id) = true :=
    List.any_eq_true.mpr ⟨s, hmem, by simp [hid]⟩
  have hred : deleteHandler store id userId =
      ({ status := 200, error := none },
       store.map (fun t => if t.oid == id then softDeleteUpdate userId t else t)) := by
    simp [deleteHandler, hvalid, hfound]
  refine ⟨?_, ?_, ?_, by rw [hred], rfl, rfl, rfl, rfl, rfl, rfl, rfl, rfl, rfl, rfl,
    rfl, rfl, rfl, rfl⟩
  · rw [hred]
    exact List.length_map _ _
  · rw [hred]
    have hs : softDeleteUpdate userId s =
        (fun t => if t.oid == id then softDeleteUpdate userId t else t) s := by
      simp [hid]
    rw [hs]
    exact List.mem_map_of_mem _ hmem
  · intro t ht hne
    rw [hred]
    have hts : t = (fun t => if t.oid == id then softDeleteUpdate userId t else t) t := by
      simp [hne]
    rw [hts]
    exact List.mem_map_of_mem _ ht

/-- C9 witness: deleting `schoolBase` by its id from a one-document store
leaves its soft-deleted version in the store. -/
theorem claim_C9_soft_delete_witness :
    softDeleteUpdate "u2" schoolBase ∈
      (deleteHandler [schoolBase] "aaaaaaaaaaaaaaaaaaaaaaaa" "u2").2 :=
  (claim_C9_soft_delete [schoolBase] "aaaaaaaaaaaaaaaaaaaaaaaa" "u2" schoolBase
    (by decide) (by simp) rfl).2.1
